import Mathlib

/-!
Verification development for `src/mcp/tools/dynamic_template_selector.py`
(roof-sow-genesis). Python strings are modelled as `List Char`; the
selector's lookup dictionaries become association lists with structural
key equality, which matches Python tuple-of-str dict keys.
-/

/-- Characters of a Lean string literal, the model of a Python `str`. -/
def lit (s : String) : List Char := s.data

/-- Whitespace recognised by Python `str.strip()` (ASCII subset:
space, tab, newline, carriage return, vertical tab, form feed). -/
def pyWhitespace (c : Char) : Bool :=
  c.toNat = 32 || c.toNat = 9 || c.toNat = 10 || c.toNat = 13 || c.toNat = 11 || c.toNat = 12

/-- Model of Python `str.lower()` (ASCII case mapping). -/
def pyLower (s : List Char) : List Char := s.map Char.toLower

/-- Model of Python `str.upper()` (ASCII case mapping). -/
def pyUpper (s : List Char) : List Char := s.map Char.toUpper

/-- Model of Python `str.strip()`: drop leading and trailing whitespace. -/
def pyStrip (s : List Char) : List Char :=
  ((s.dropWhile pyWhitespace).reverse.dropWhile pyWhitespace).reverse

/-- `startsWith hay needle`: `needle` is an initial segment of `hay`. -/
def startsWith : List Char → List Char → Bool
  | _, [] => true
  | [], _ :: _ => false
  | a :: as, b :: bs => (a == b) && startsWith as bs

/-- `containsSub hay needle`: model of Python `needle in hay`. -/
def containsSub : List Char → List Char → Bool
  | [], needle => needle.isEmpty
  | c :: t, needle => startsWith (c :: t) needle || containsSub t needle

/-- `_normalize_work_type` (source lines 167-175). -/
def normalizeWorkType (work_type : List Char) : List Char :=
  let w := pyStrip (pyLower work_type)
  if containsSub w (lit "recover") || containsSub w (lit "re-cover") then lit "recover"
  else if containsSub w (lit "tearoff") || containsSub w (lit "tear-off") ||
      containsSub w (lit "replacement") then lit "tearoff"
  else lit "recover"

/-- `_normalize_membrane_type` (source lines 177-189). -/
def normalizeMembraneType (membrane_type : List Char) : List Char :=
  let m := pyStrip (pyUpper membrane_type)
  if containsSub m (lit "FLEECE") || containsSub m (lit "FLEECEBACK") then lit "TPO_fleece"
  else if containsSub m (lit "TPO") then lit "TPO"
  else if containsSub m (lit "EPDM") then lit "EPDM"
  else if containsSub m (lit "PVC") then lit "PVC"
  else lit "TPO"

/-- `_normalize_attachment_method` (source lines 191-203). -/
def normalizeAttachmentMethod (fastening_pattern : List Char) : List Char :=
  let f := pyStrip (pyLower fastening_pattern)
  if containsSub f (lit "mechanical") || containsSub f (lit "attached") then
    lit "mechanically_attached"
  else if containsSub f (lit "adhered") || containsSub f (lit "fully") then lit "fully_adhered"
  else if containsSub f (lit "rhino") || containsSub f (lit "induction") then lit "rhino_bond"
  else if containsSub f (lit "ballasted") then lit "ballasted"
  else lit "mechanically_attached"

/-- `_normalize_deck_type` (source lines 205-225); `none` models Python `None`
(empty or unrecognised deck inputs). -/
def normalizeDeckType (deck_type : List Char) : Option (List Char) :=
  if deck_type.isEmpty then none
  else
    let d := pyStrip (pyLower deck_type)
    if containsSub d (lit "steel") then some (lit "steel")
    else if containsSub d (lit "concrete") then
      if containsSub d (lit "lightweight") || containsSub d (lit "lwc") then
        some (lit "lightweight_concrete")
      else some (lit "concrete")
    else if containsSub d (lit "gypsum") then some (lit "gypsum")
    else if containsSub d (lit "wood") then some (lit "wood")
    else if containsSub d (lit "standing") && containsSub d (lit "seam") then
      some (lit "structural_standing_seam")
    else none

/-- The `project_data` dictionary restricted to the four fields the selector
reads; `none` models an absent key (Python `dict.get(key, "")` then defaults). -/
structure ProjectData where
  project_type : Option (List Char)
  membrane_type : Option (List Char)
  fastening_pattern : Option (List Char)
  deck_type : Option (List Char)
deriving DecidableEq

/-- One record of `template_metadata` (source lines 67-130). A record with no
`restrictions` key is modelled with `restrictions = []`; the validator only
iterates over the list, so the behaviour is identical. -/
structure TemplateMetadata where
  work_type : List Char
  membrane_types : List (List Char)
  attachment_methods : List (List Char)
  deck_types : List (List Char)
  sections : List (List Char)
  complexity : List Char
  estimated_duration : List Char
  restrictions : List (List Char) := []
deriving DecidableEq

/-- Python dict lookup over an association list with structural key equality. -/
def dictLookup {α β : Type} [DecidableEq α] : List (α × β) → α → Option β
  | [], _ => none
  | (k, v) :: t, key => if k = key then some v else dictLookup t key

/-- A selection key: `(work_type, membrane_type, attachment_method, deck_type)`. -/
abbrev SelKey := List Char × List Char × List Char × Option (List Char)

/-- A value of `template_mapping`: `(template_id, template_name, description)`. -/
abbrev TemplateEntry := List Char × List Char × List Char

/-- `self.template_mapping` (source lines 19-64). -/
def template_mapping : List (SelKey × TemplateEntry) :=
  [ ((lit "recover", lit "TPO", lit "mechanically_attached", some (lit "steel")),
      (lit "T2", lit "T2-Recover-TPO(MA)-cvr-bd-BUR-lwc-steel",
       lit "TPO recover over BUR on lightweight concrete and steel deck")),
    ((lit "recover", lit "TPO", lit "mechanically_attached", some (lit "concrete")),
      (lit "T2", lit "T2-Recover-TPO(MA)-cvr-bd-BUR-lwc-steel",
       lit "TPO recover over existing membrane on concrete")),
    ((lit "recover", lit "TPO_fleece", lit "mechanically_attached", some (lit "steel")),
      (lit "T4", lit "T4-Recover-TPOfleece(MA)-BUR-lwc-steel",
       lit "TPO fleeceback recover over BUR on steel (Note: Not for Prologis)")),
    ((lit "recover", lit "TPO", lit "rhino_bond", some (lit "steel")),
      (lit "T5", lit "T5-Recover-TPO(Rhino)-iso-EPS-flute-fill-SSR",
       lit "TPO with Rhino Bond over structural standing seam roof")),
    ((lit "tearoff", lit "TPO", lit "mechanically_attached", some (lit "steel")),
      (lit "T6", lit "T6-Tearoff-TPO(MA)-insul-steel",
       lit "TPO tearoff and replacement with insulation on steel deck")),
    ((lit "tearoff", lit "TPO", lit "mechanically_attached", some (lit "lightweight_concrete")),
      (lit "T7", lit "T7-Tearoff-TPO(MA)-insul-lwc-steel",
       lit "TPO tearoff over lightweight concrete on steel deck")),
    ((lit "tearoff", lit "TPO", lit "fully_adhered", some (lit "gypsum")),
      (lit "T8", lit "T8-Tearoff-TPO(adhered)-insul(adhered)-gypsum",
       lit "Fully adhered TPO tearoff and replacement on gypsum deck")),
    ((lit "recover", lit "TPO", lit "mechanically_attached", none),
      (lit "T2", lit "T2-Recover-TPO(MA)-cvr-bd-BUR-lwc-steel",
       lit "Standard TPO recover (deck type to be determined)")),
    ((lit "tearoff", lit "TPO", lit "mechanically_attached", none),
      (lit "T6", lit "T6-Tearoff-TPO(MA)-insul-steel",
       lit "Standard TPO tearoff (deck type to be determined)")) ]

/-- The `"T2"` record of `template_metadata`. -/
def metaT2 : TemplateMetadata where
  work_type := lit "recover"
  membrane_types := [lit "TPO"]
  attachment_methods := [lit "mechanically_attached"]
  deck_types := [lit "steel", lit "concrete", lit "lightweight_concrete"]
  sections := [lit "project_overview", lit "existing_conditions", lit "scope_of_work",
    lit "materials", lit "installation", lit "fastening_requirements",
    lit "flashing_details", lit "warranty"]
  complexity := lit "standard"
  estimated_duration := lit "5-7 days per 10,000 sf"

/-- The `"T4"` record of `template_metadata`. -/
def metaT4 : TemplateMetadata where
  work_type := lit "recover"
  membrane_types := [lit "TPO_fleece"]
  attachment_methods := [lit "mechanically_attached"]
  deck_types := [lit "steel"]
  sections := [lit "project_overview", lit "scope_of_work", lit "materials",
    lit "installation", lit "fleeceback_requirements"]
  complexity := lit "standard"
  estimated_duration := lit "4-6 days per 10,000 sf"
  restrictions := [lit "Not approved for Prologis projects"]

/-- The `"T5"` record of `template_metadata`. -/
def metaT5 : TemplateMetadata where
  work_type := lit "recover"
  membrane_types := [lit "TPO"]
  attachment_methods := [lit "rhino_bond", lit "induction_welded"]
  deck_types := [lit "structural_standing_seam"]
  sections := [lit "project_overview", lit "scope_of_work", lit "materials",
    lit "installation", lit "rhino_bond_requirements", lit "EPS_flute_fill"]
  complexity := lit "complex"
  estimated_duration := lit "6-8 days per 10,000 sf"

/-- The `"T6"` record of `template_metadata`. -/
def metaT6 : TemplateMetadata where
  work_type := lit "tearoff"
  membrane_types := [lit "TPO"]
  attachment_methods := [lit "mechanically_attached"]
  deck_types := [lit "steel"]
  sections := [lit "project_overview", lit "tearoff_requirements", lit "scope_of_work",
    lit "materials", lit "insulation", lit "installation", lit "fastening", lit "warranty"]
  complexity := lit "standard"
  estimated_duration := lit "7-10 days per 10,000 sf"

/-- The `"T7"` record of `template_metadata`. -/
def metaT7 : TemplateMetadata where
  work_type := lit "tearoff"
  membrane_types := [lit "TPO"]
  attachment_methods := [lit "mechanically_attached"]
  deck_types := [lit "lightweight_concrete", lit "steel"]
  sections := [lit "project_overview", lit "tearoff_requirements", lit "scope_of_work",
    lit "materials", lit "insulation", lit "installation", lit "lwc_considerations"]
  complexity := lit "standard"
  estimated_duration := lit "8-11 days per 10,000 sf"

/-- The `"T8"` record of `template_metadata`. -/
def metaT8 : TemplateMetadata where
  work_type := lit "tearoff"
  membrane_types := [lit "TPO"]
  attachment_methods := [lit "fully_adhered"]
  deck_types := [lit "gypsum"]
  sections := [lit "project_overview", lit "tearoff_requirements", lit "scope_of_work",
    lit "materials", lit "adhered_insulation", lit "adhered_membrane",
    lit "gypsum_requirements"]
  complexity := lit "complex"
  estimated_duration := lit "9-12 days per 10,000 sf"

/-- `self.template_metadata` (source lines 67-130). -/
def template_metadata : List (List Char × TemplateMetadata) :=
  [ (lit "T2", metaT2), (lit "T4", metaT4), (lit "T5", metaT5),
    (lit "T6", metaT6), (lit "T7", metaT7), (lit "T8", metaT8) ]

/-- The `template_info` dictionary returned by the selector. The fallback
response carries no `sections` key, so `sections` is an `Option`. -/
structure TemplateInfo where
  template_id : List Char
  template_name : List Char
  description : List Char
  metadata : Option TemplateMetadata
  selection_logic : SelKey
  confidence : List Char
  notes : List (List Char)
  estimated_duration : List Char
  complexity : List Char
  sections : Option (List (List Char))
deriving DecidableEq

/-- The normalized lookup key built by `select_template` (source lines 144-150). -/
def selectionKey (pd : ProjectData) : SelKey :=
  (normalizeWorkType (pd.project_type.getD []),
   normalizeMembraneType (pd.membrane_type.getD []),
   normalizeAttachmentMethod (pd.fastening_pattern.getD []),
   normalizeDeckType (pd.deck_type.getD []))

/-- The `fallback_key` of `select_template`: deck type forced to `None`
(source line 158). -/
def wildKey (pd : ProjectData) : SelKey :=
  ((selectionKey pd).1, (selectionKey pd).2.1, (selectionKey pd).2.2.1, none)

/-- The note attached to a deck-wildcard match (source line 162). -/
def deckVerificationNote : List Char :=
  lit "Deck type needs verification for optimal template selection"

/-- `_build_template_response` (source lines 227-252). -/
def build_template_response (template_id template_name description : List Char)
    (pd : ProjectData) (notes : Option (List (List Char))) :
    List Char × TemplateInfo :=
  let metadata := dictLookup template_metadata template_id
  (template_id,
   { template_id := template_id
     template_name := template_name
     description := description
     metadata := metadata
     selection_logic := selectionKey pd
     confidence := lit "high"
     notes := notes.getD []
     estimated_duration :=
       (metadata.map TemplateMetadata.estimated_duration).getD (lit "To be determined")
     complexity := (metadata.map TemplateMetadata.complexity).getD (lit "standard")
     sections := some ((metadata.map TemplateMetadata.sections).getD []) })

/-- `_build_fallback_response` (source lines 254-278). -/
def build_fallback_response (pd : ProjectData) : List Char × TemplateInfo :=
  (lit "T2",
   { template_id := lit "T2"
     template_name := lit "T2-Recover-TPO(MA)-cvr-bd-BUR-lwc-steel"
     description := lit "Default TPO template - requires manual review"
     metadata := dictLookup template_metadata (lit "T2")
     selection_logic := selectionKey pd
     confidence := lit "low"
     notes := [lit "No exact template match found for specified parameters",
               lit "Using default TPO recover template",
               lit "Manual review recommended for template selection"]
     estimated_duration := lit "To be determined based on final specifications"
     complexity := lit "requires_review"
     sections := none })

/-- `select_template` (source lines 132-165): exact-key lookup, then
deck-wildcard lookup, then the ultimate fallback. -/
def select_template (pd : ProjectData) : List Char × TemplateInfo :=
  match dictLookup template_mapping (selectionKey pd) with
  | some (tid, tname, descr) => build_template_response tid tname descr pd none
  | none =>
    match dictLookup template_mapping (wildKey pd) with
    | some (tid, tname, descr) =>
        build_template_response tid tname descr pd (some [deckVerificationNote])
    | none => build_fallback_response pd

/-- The dictionary returned by `validate_template_compatibility`; `confidence`
is `none` in the template-not-found branch, which carries no such key. -/
structure CompatibilityReport where
  compatible : Bool
  errors : List (List Char)
  warnings : List (List Char)
  recommendations : List (List Char)
  confidence : Option (List Char)
deriving DecidableEq

/-- The `errors` list built by `validate_template_compatibility` (source lines
322-330): the work-type check followed by the membrane check, each appending at
most one message. The source binds the normalized values to local variables;
they are inlined here, which is equivalent since all functions are pure. -/
def validationErrors (metadata : TemplateMetadata) (pd : ProjectData) : List (List Char) :=
  (if normalizeWorkType (pd.project_type.getD []) ≠ metadata.work_type then
    [lit "Work type mismatch: Template is for " ++ metadata.work_type ++
     lit ", project is " ++ normalizeWorkType (pd.project_type.getD [])]
   else []) ++
  (if normalizeMembraneType (pd.membrane_type.getD []) ∉ metadata.membrane_types then
    [lit "Membrane type \x27" ++ normalizeMembraneType (pd.membrane_type.getD []) ++
     lit "\x27 not supported by this template"]
   else [])

/-- The `warnings` list built by `validate_template_compatibility` (source
lines 332-340): the deck check (skipped when the normalized deck is `None`)
followed by the unconditional surfacing of every catalog restriction. -/
def validationWarnings (metadata : TemplateMetadata) (pd : ProjectData) : List (List Char) :=
  (match normalizeDeckType (pd.deck_type.getD []) with
   | some d =>
       if d ∉ metadata.deck_types then
         [lit "Deck type \x27" ++ d ++ lit "\x27 may not be optimal for this template"]
       else []
   | none => []) ++
  metadata.restrictions.map (fun r => lit "Template restriction: " ++ r)

/-- The report returned for a known template id (source lines 342-348). -/
def reportFor (metadata : TemplateMetadata) (pd : ProjectData) : CompatibilityReport :=
  { compatible := (validationErrors metadata pd).length == 0
    errors := validationErrors metadata pd
    warnings := validationWarnings metadata pd
    recommendations := []
    confidence := some (if (validationErrors metadata pd).length == 0 &&
                           (validationWarnings metadata pd).length == 0 then lit "high"
                        else if (validationErrors metadata pd).length == 0 then lit "medium"
                        else lit "low") }

/-- `validate_template_compatibility` (source lines 305-348). -/
def validate_template_compatibility (template_id : List Char) (pd : ProjectData) :
    CompatibilityReport :=
  match dictLookup template_metadata template_id with
  | none =>
      { compatible := false
        errors := [lit "Template " ++ template_id ++ lit " not found"]
        warnings := []
        recommendations := [lit "Please select a valid template"]
        confidence := none }
  | some metadata => reportFor metadata pd

/-- Test input: recover / TPO / mechanically attached / steel
(source test case 1, lines 356-361). -/
def pdRecoverSteel : ProjectData where
  project_type := some (lit "recover")
  membrane_type := some (lit "TPO")
  fastening_pattern := some (lit "Mechanically Attached")
  deck_type := some (lit "Steel")

/-- Test input with no table entry at all: tearoff / PVC / ballasted / absent. -/
def pdNoEntry : ProjectData where
  project_type := some (lit "tearoff")
  membrane_type := some (lit "PVC")
  fastening_pattern := some (lit "ballasted")
  deck_type := none

/-- Test input whose deck string is unrecognised: recover / TPO /
mechanically attached / bamboo. -/
def pdBamboo : ProjectData where
  project_type := some (lit "recover")
  membrane_type := some (lit "TPO")
  fastening_pattern := some (lit "Mechanically Attached")
  deck_type := some (lit "bamboo")

/-- Test input compatible with template T4. -/
def pdFleeceSteel : ProjectData where
  project_type := some (lit "recover")
  membrane_type := some (lit "TPO Fleeceback")
  fastening_pattern := some (lit "Mechanically Attached")
  deck_type := some (lit "Steel")

/-- Test input: tearoff / TPO / fully adhered / steel. -/
def pdTearoffAdhered : ProjectData where
  project_type := some (lit "tearoff")
  membrane_type := some (lit "TPO")
  fastening_pattern := some (lit "Fully Adhered")
  deck_type := some (lit "Steel")

/-- As `pdTearoffAdhered` but with a different fastening pattern. -/
def pdTearoffMA : ProjectData where
  project_type := some (lit "tearoff")
  membrane_type := some (lit "TPO")
  fastening_pattern := some (lit "Mechanically Attached")
  deck_type := some (lit "Steel")

/-! ### Nullable field values

The selector's fields come from a JSON-ish dictionary, so a key can also be
present with value `None` (null). `project_data.get(key, "")` returns that
`None` unchanged, and `_normalize_work_type`, `_normalize_membrane_type` and
`_normalize_attachment_method` then raise `AttributeError` on
`None.lower()` / `None.upper()` (source lines 169, 179, 193); only
`_normalize_deck_type` tolerates `None` through its `if not deck_type` guard
(source line 207). The model below makes that crash path explicit: `none`
models the raised exception. -/

/-- A value a project-data field can hold: a string, or Python `None`. -/
inductive PyVal where
  | null : PyVal
  | str : List Char → PyVal
deriving DecidableEq

/-- The `project_data` dictionary with nullable fields: `none` is an absent
key, `some PyVal.null` a key present with value `None`. -/
structure ProjectDataNullable where
  project_type : Option PyVal
  membrane_type : Option PyVal
  fastening_pattern : Option PyVal
  deck_type : Option PyVal
deriving DecidableEq

/-- `project_data.get(key, "")`: the stored value, even when it is `None`;
the empty string only for an absent key. -/
def getField (v : Option PyVal) : PyVal := v.getD (PyVal.str [])

/-- Attribute access on a field value (`value.lower()` / `value.upper()`):
`none` models the `AttributeError` raised when the value is Python `None`. -/
def asString : PyVal → Option (List Char)
  | PyVal.null => none
  | PyVal.str s => some s

/-- `_normalize_work_type` on a raw field value: `work_type.lower()` raises
on `None` (source line 169). -/
def normalizeWorkTypeChecked (v : PyVal) : Option (List Char) :=
  (asString v).map normalizeWorkType

/-- `_normalize_membrane_type` on a raw field value: `membrane_type.upper()`
raises on `None` (source line 179). -/
def normalizeMembraneTypeChecked (v : PyVal) : Option (List Char) :=
  (asString v).map normalizeMembraneType

/-- `_normalize_attachment_method` on a raw field value:
`fastening_pattern.lower()` raises on `None` (source line 193). -/
def normalizeAttachmentMethodChecked (v : PyVal) : Option (List Char) :=
  (asString v).map normalizeAttachmentMethod

/-- `_normalize_deck_type` on a raw field value: `if not deck_type` is true
for `None` (source line 207), so a null deck returns `None` (absent) before
any attribute access instead of raising. -/
def normalizeDeckTypeChecked : PyVal → Option (Option (List Char))
  | PyVal.null => some none
  | PyVal.str s => some (normalizeDeckType s)

/-- The string field seen by the string-typed record: null behaves like an
absent key. The three `.lower()`/`.upper()` fields are only read through this
view when their value is not null; for `deck_type`, `None` and the absent-key
default "" normalize identically (both to absent), so the collapse preserves
behaviour there. -/
def fieldStr : Option PyVal → Option (List Char)
  | some (PyVal.str s) => some s
  | _ => none

/-- The string-typed view of a nullable record. -/
def toStringFields (pd : ProjectDataNullable) : ProjectData where
  project_type := fieldStr pd.project_type
  membrane_type := fieldStr pd.membrane_type
  fastening_pattern := fieldStr pd.fastening_pattern
  deck_type := fieldStr pd.deck_type

/-- `select_template` over nullable fields: the four normalizations of source
lines 144-147, `none` when one of them raises. When none raises, the source
proceeds exactly as `select_template` on the string-typed view — the checked
normalized values coincide with that record's selection key, since a null
deck and an absent deck both normalize to absent. -/
def select_template_checked (pd : ProjectDataNullable) :
    Option (List Char × TemplateInfo) :=
  match normalizeWorkTypeChecked (getField pd.project_type),
        normalizeMembraneTypeChecked (getField pd.membrane_type),
        normalizeAttachmentMethodChecked (getField pd.fastening_pattern),
        normalizeDeckTypeChecked (getField pd.deck_type) with
  | some _, some _, some _, some _ => some (select_template (toStringFields pd))
  | _, _, _, _ => none

/-- Test input whose project_type is present but null. -/
def pdNullProjectType : ProjectDataNullable where
  project_type := some PyVal.null
  membrane_type := some (PyVal.str (lit "TPO"))
  fastening_pattern := some (PyVal.str (lit "Mechanically Attached"))
  deck_type := some (PyVal.str (lit "Steel"))

/-- Test input whose deck_type is present but null — the one field whose
normalizer tolerates null. -/
def pdNullDeck : ProjectDataNullable where
  project_type := some (PyVal.str (lit "recover"))
  membrane_type := some (PyVal.str (lit "TPO"))
  fastening_pattern := some (PyVal.str (lit "Mechanically Attached"))
  deck_type := some PyVal.null

/-! ### Helper lemmas on the string model -/

theorem startsWith_iff (needle : List Char) :
    ∀ hay, startsWith hay needle = true ↔ ∃ r, needle ++ r = hay := by
  induction needle with
  | nil => intro hay; simp [startsWith]
  | cons b bs ih =>
    intro hay
    cases hay with
    | nil => simp [startsWith]
    | cons a as =>
      simp only [startsWith, Bool.and_eq_true, beq_iff_eq, ih, List.cons_append,
        List.cons.injEq]
      constructor
      · rintro ⟨hab, r, hr⟩; exact ⟨r, hab.symm, hr⟩
      · rintro ⟨r, hba, hr⟩; exact ⟨hba.symm, r, hr⟩

theorem containsSub_iff (needle : List Char) :
    ∀ hay, containsSub hay needle = true ↔ ∃ l r, l ++ needle ++ r = hay := by
  intro hay
  induction hay with
  | nil =>
    simp only [containsSub, List.isEmpty_iff]
    constructor
    · rintro rfl; exact ⟨[], [], rfl⟩
    · rintro ⟨l, r, h⟩
      rcases List.append_eq_nil.mp h with ⟨h1, _⟩
      exact (List.append_eq_nil.mp h1).2
  | cons c t ih =>
    simp only [containsSub, Bool.or_eq_true, startsWith_iff, ih]
    constructor
    · rintro (⟨r, hr⟩ | ⟨l, r, hlr⟩)
      · exact ⟨[], r, by simpa using hr⟩
      · exact ⟨c :: l, r, by simpa using hlr⟩
    · rintro ⟨l, r, hlr⟩
      cases l with
      | nil => exact Or.inl ⟨r, by simpa using hlr⟩
      | cons x xs =>
        rw [List.cons_append] at hlr
        injection hlr with h1 h2
        exact Or.inr ⟨xs, r, h2⟩

theorem containsSub_reverse (hay needle : List Char) :
    containsSub hay.reverse needle.reverse = containsSub hay needle := by
  rw [Bool.eq_iff_iff, containsSub_iff, containsSub_iff]
  constructor
  · rintro ⟨l, r, h⟩
    refine ⟨r.reverse, l.reverse, ?_⟩
    have := congrArg List.reverse h
    simpa [List.reverse_append, List.append_assoc] using this
  · rintro ⟨l, r, h⟩
    refine ⟨r.reverse, l.reverse, ?_⟩
    have := congrArg List.reverse h
    simpa [List.reverse_append, List.append_assoc] using this

theorem containsSub_dropWhile (needle : List Char) (hne : needle ≠ [])
    (hns : ∀ c ∈ needle, pyWhitespace c = false) :
    ∀ hay, containsSub hay needle = true →
      containsSub (hay.dropWhile pyWhitespace) needle = true := by
  intro hay
  induction hay with
  | nil =>
    simp only [containsSub, List.isEmpty_iff]
    intro h; exact absurd h hne
  | cons c t ih =>
    intro h
    by_cases hc : pyWhitespace c = true
    · rw [List.dropWhile_cons_of_pos hc]
      apply ih
      simp only [containsSub, Bool.or_eq_true] at h
      rcases h with hs | hrest
      · exfalso
        rcases (startsWith_iff needle (c :: t)).mp hs with ⟨r, hr⟩
        cases needle with
        | nil => exact hne rfl
        | cons n ns =>
          rw [List.cons_append, List.cons.injEq] at hr
          have := hns n (List.mem_cons_self n ns)
          rw [hr.1] at this
          rw [this] at hc
          exact Bool.false_ne_true hc
      · exact hrest
    · rw [List.dropWhile_cons_of_neg hc]
      exact h

/-- A substring made of non-whitespace characters survives `pyStrip`. -/
theorem containsSub_pyStrip (hay needle : List Char) (hne : needle ≠ [])
    (hns : ∀ c ∈ needle, pyWhitespace c = false)
    (h : containsSub hay needle = true) :
    containsSub (pyStrip hay) needle = true := by
  unfold pyStrip
  have h1 := containsSub_dropWhile needle hne hns hay h
  have hne2 : needle.reverse ≠ [] := by simpa using hne
  have hns2 : ∀ c ∈ needle.reverse, pyWhitespace c = false := by
    intro c hc; exact hns c (List.mem_reverse.mp hc)
  have h2 : containsSub (hay.dropWhile pyWhitespace).reverse needle.reverse = true := by
    rw [containsSub_reverse]; exact h1
  have h3 := containsSub_dropWhile needle.reverse hne2 hns2 _ h2
  have h4 := containsSub_reverse
    ((hay.dropWhile pyWhitespace).reverse.dropWhile pyWhitespace) needle.reverse
  rw [List.reverse_reverse] at h4
  rw [h4]
  exact h3

/-- A successful dict lookup returns a key-value pair stored in the dict. -/
theorem dictLookup_mem {α β : Type} [DecidableEq α] (l : List (α × β)) (k : α) (v : β)
    (h : dictLookup l k = some v) : (k, v) ∈ l := by
  induction l with
  | nil => simp [dictLookup] at h
  | cons p t ih =>
    obtain ⟨pk, pv⟩ := p
    rw [dictLookup] at h
    by_cases hk : pk = k
    · rw [if_pos hk] at h
      injection h with h2
      subst hk; subst h2
      exact List.mem_cons_self _ _
    · rw [if_neg hk] at h
      exact List.mem_cons_of_mem _ (ih h)

/-! ### Claim theorems -/

/-- Totality over string-typed fields: every input string makes each
normalization function return a member of its documented closed token set,
and `select_template` on a string-typed record is total with confidence high
or low. -/
theorem normalization_totality (s : List Char) (pd : ProjectData) :
    (normalizeWorkType s = lit "recover" ∨ normalizeWorkType s = lit "tearoff") ∧
    (normalizeMembraneType s = lit "TPO" ∨ normalizeMembraneType s = lit "TPO_fleece" ∨
      normalizeMembraneType s = lit "EPDM" ∨ normalizeMembraneType s = lit "PVC") ∧
    (normalizeAttachmentMethod s = lit "mechanically_attached" ∨
      normalizeAttachmentMethod s = lit "fully_adhered" ∨
      normalizeAttachmentMethod s = lit "rhino_bond" ∨
      normalizeAttachmentMethod s = lit "ballasted") ∧
    (normalizeDeckType s = none ∨ normalizeDeckType s = some (lit "steel") ∨
      normalizeDeckType s = some (lit "concrete") ∨
      normalizeDeckType s = some (lit "lightweight_concrete") ∨
      normalizeDeckType s = some (lit "gypsum") ∨
      normalizeDeckType s = some (lit "wood") ∨
      normalizeDeckType s = some (lit "structural_standing_seam")) ∧
    ((select_template pd).2.confidence = lit "high" ∨
      (select_template pd).2.confidence = lit "low") := by
  refine ⟨?_, ?_, ?_, ?_, ?_⟩
  · simp only [normalizeWorkType]
    split
    · exact Or.inl rfl
    · split
      · exact Or.inr rfl
      · exact Or.inl rfl
  · simp only [normalizeMembraneType]
    split
    · exact Or.inr (Or.inl rfl)
    · split
      · exact Or.inl rfl
      · split
        · exact Or.inr (Or.inr (Or.inl rfl))
        · split
          · exact Or.inr (Or.inr (Or.inr rfl))
          · exact Or.inl rfl
  · simp only [normalizeAttachmentMethod]
    split
    · exact Or.inl rfl
    · split
      · exact Or.inr (Or.inl rfl)
      · split
        · exact Or.inr (Or.inr (Or.inl rfl))
        · split
          · exact Or.inr (Or.inr (Or.inr rfl))
          · exact Or.inl rfl
  · simp only [normalizeDeckType]
    split
    · exact Or.inl rfl
    · split
      · exact Or.inr (Or.inl rfl)
      · split
        · split
          · exact Or.inr (Or.inr (Or.inr (Or.inl rfl)))
          · exact Or.inr (Or.inr (Or.inl rfl))
        · split
          · exact Or.inr (Or.inr (Or.inr (Or.inr (Or.inl rfl))))
          · split
            · exact Or.inr (Or.inr (Or.inr (Or.inr (Or.inr (Or.inl rfl)))))
            · split
              · exact Or.inr (Or.inr (Or.inr (Or.inr (Or.inr (Or.inr rfl)))))
              · exact Or.inl rfl
  · cases h1 : dictLookup template_mapping (selectionKey pd) with
    | some e =>
      obtain ⟨tid, tname, descr⟩ := e
      have hsel : select_template pd = build_template_response tid tname descr pd none := by
        unfold select_template; rw [h1]
      rw [hsel]; exact Or.inl rfl
    | none =>
      cases h2 : dictLookup template_mapping (wildKey pd) with
      | some e =>
        obtain ⟨tid, tname, descr⟩ := e
        have hsel : select_template pd =
            build_template_response tid tname descr pd (some [deckVerificationNote]) := by
          unfold select_template; rw [h1, h2]
        rw [hsel]; exact Or.inl rfl
      | none =>
        have hsel : select_template pd = build_fallback_response pd := by
          unfold select_template; rw [h1, h2]
        rw [hsel]; exact Or.inr rfl

/-- A field that is not a present null is read by `dict.get(key, "")` as some
string. -/
theorem getField_ne_null (v : Option PyVal) (h : v ≠ some PyVal.null) :
    ∃ s, getField v = PyVal.str s := by
  cases v with
  | none => exact ⟨[], rfl⟩
  | some pv =>
    cases pv with
    | null => exact absurd rfl h
    | str s => exact ⟨s, rfl⟩

/-- Counterexample to claim C2 as stated: a project_type, membrane_type or
fastening_pattern field supplied as null reaches `.lower()` / `.upper()` in
the normalizers (source lines 169, 179, 193) and raises AttributeError
(modelled as `none`), so normalization fails and `select_template` raises on
a record whose project_type is a present null — it does not return a
result. -/
theorem normalization_null_counterexample :
    normalizeWorkTypeChecked PyVal.null = none ∧
    normalizeMembraneTypeChecked PyVal.null = none ∧
    normalizeAttachmentMethodChecked PyVal.null = none ∧
    select_template_checked pdNullProjectType = none :=
  ⟨rfl, rfl, rfl, rfl⟩

/-- Claim C2 (amended): for every field that is absent or supplied as a
string — including the empty string and arbitrary text — the four
normalization functions never fail and always return a member of their
documented closed token set, and `select_template` never raises, returning a
result with confidence high or low; a deck_type supplied as null is likewise
tolerated (its normalizer returns absent before any attribute access). Only
a null project_type, membrane_type or fastening_pattern escapes this
guarantee (see the counterexample). -/
theorem normalization_totality_amended (s : List Char) (pd : ProjectDataNullable)
    (h1 : pd.project_type ≠ some PyVal.null)
    (h2 : pd.membrane_type ≠ some PyVal.null)
    (h3 : pd.fastening_pattern ≠ some PyVal.null) :
    (normalizeWorkType s = lit "recover" ∨ normalizeWorkType s = lit "tearoff") ∧
    (normalizeMembraneType s = lit "TPO" ∨ normalizeMembraneType s = lit "TPO_fleece" ∨
      normalizeMembraneType s = lit "EPDM" ∨ normalizeMembraneType s = lit "PVC") ∧
    (normalizeAttachmentMethod s = lit "mechanically_attached" ∨
      normalizeAttachmentMethod s = lit "fully_adhered" ∨
      normalizeAttachmentMethod s = lit "rhino_bond" ∨
      normalizeAttachmentMethod s = lit "ballasted") ∧
    (normalizeDeckType s = none ∨ normalizeDeckType s = some (lit "steel") ∨
      normalizeDeckType s = some (lit "concrete") ∨
      normalizeDeckType s = some (lit "lightweight_concrete") ∨
      normalizeDeckType s = some (lit "gypsum") ∨
      normalizeDeckType s = some (lit "wood") ∨
      normalizeDeckType s = some (lit "structural_standing_seam")) ∧
    select_template_checked pd = some (select_template (toStringFields pd)) ∧
    ((select_template (toStringFields pd)).2.confidence = lit "high" ∨
      (select_template (toStringFields pd)).2.confidence = lit "low") := by
  obtain ⟨c1, c2, c3, c4, c5⟩ := normalization_totality s (toStringFields pd)
  refine ⟨c1, c2, c3, c4, ?_, c5⟩
  obtain ⟨s1, e1⟩ := getField_ne_null _ h1
  obtain ⟨s2, e2⟩ := getField_ne_null _ h2
  obtain ⟨s3, e3⟩ := getField_ne_null _ h3
  unfold select_template_checked
  rw [e1, e2, e3]
  cases e4 : getField pd.deck_type with
  | null => rfl
  | str s4 => rfl

/-- Witness for the amended C2: a record whose deck_type is a present null
still selects a template, with confidence high or low. -/
theorem normalization_totality_amended_witness :
    select_template_checked pdNullDeck =
      some (select_template (toStringFields pdNullDeck)) ∧
    ((select_template (toStringFields pdNullDeck)).2.confidence = lit "high" ∨
      (select_template (toStringFields pdNullDeck)).2.confidence = lit "low") :=
  (normalization_totality_amended [] pdNullDeck (by decide) (by decide)
    (by decide)).2.2.2.2

/-- Claim C6: for a template id missing from the catalog, the validator
returns a terminal not-found report — incompatible, exactly one error naming
the missing template, no warnings, no confidence key, and independent of the
project data, so no other checks run. -/
theorem unknown_template_terminal (tid : List Char) (pd : ProjectData)
    (h : dictLookup template_metadata tid = none) :
    validate_template_compatibility tid pd =
      { compatible := false
        errors := [lit "Template " ++ tid ++ lit " not found"]
        warnings := []
        recommendations := [lit "Please select a valid template"]
        confidence := none } := by
  unfold validate_template_compatibility
  rw [h]

/-- Witness for C6 at the concrete unknown id from the spec. -/
theorem unknown_template_terminal_witness :
    validate_template_compatibility (lit "NOT_A_REAL_ID") pdRecoverSteel =
      { compatible := false
        errors := [lit "Template " ++ lit "NOT_A_REAL_ID" ++ lit " not found"]
        warnings := []
        recommendations := [lit "Please select a valid template"]
        confidence := none } :=
  unknown_template_terminal (lit "NOT_A_REAL_ID") pdRecoverSteel (by decide)

/-- Claim C7: any input whose lowercase form contains "attached" normalizes to
mechanically_attached, because the mechanical/attached branch precedes the
adhered/fully branch. -/
theorem attached_precedence (s : List Char)
    (h : containsSub (pyLower s) (lit "attached") = true) :
    normalizeAttachmentMethod s = lit "mechanically_attached" := by
  have hc : containsSub (pyStrip (pyLower s)) (lit "attached") = true :=
    containsSub_pyStrip _ _ (by decide) (by decide) h
  simp [normalizeAttachmentMethod, hc]

/-- Witness for C7 at the ambiguous input named by the spec. -/
theorem attached_precedence_witness :
    normalizeAttachmentMethod (lit "Fully Attached") = lit "mechanically_attached" :=
  attached_precedence (lit "Fully Attached") (by decide)

/-- Claim C8: "TPO Fleeceback" normalizes to TPO_fleece, and in general any
input whose uppercase form contains "FLEECE" normalizes to TPO_fleece — the
fleece check precedes the generic TPO check. -/
theorem fleece_precedence :
    normalizeMembraneType (lit "TPO Fleeceback") = lit "TPO_fleece" ∧
    ∀ s, containsSub (pyUpper s) (lit "FLEECE") = true →
      normalizeMembraneType s = lit "TPO_fleece" := by
  constructor
  · decide
  · intro s h
    have hc : containsSub (pyStrip (pyUpper s)) (lit "FLEECE") = true :=
      containsSub_pyStrip _ _ (by decide) (by decide) h
    simp [normalizeMembraneType, hc]

/-- Witness for C8: the general branch applied at a concrete input. -/
theorem fleece_precedence_witness :
    normalizeMembraneType (lit "white FLEECE membrane") = lit "TPO_fleece" :=
  fleece_precedence.2 (lit "white FLEECE membrane") (by decide)

/-- Claim C1: `select_template` follows strict three-tier precedence — an
exact-key hit returns that entry with confidence high and empty notes; only on
a miss is the deck-wildcard key tried, returning confidence high with the
single deck-verification note; only if both miss does the ultimate fallback
fire. Any entry returned by the first two tiers is stored in the table under a
key whose work type, membrane type and attachment method are exactly the
normalized inputs. -/
theorem select_template_three_tier (pd : ProjectData) :
    (∀ e, dictLookup template_mapping (selectionKey pd) = some e →
      select_template pd = build_template_response e.1 e.2.1 e.2.2 pd none ∧
      (select_template pd).2.confidence = lit "high" ∧
      (select_template pd).2.notes = [] ∧
      (selectionKey pd, e) ∈ template_mapping) ∧
    (dictLookup template_mapping (selectionKey pd) = none →
      ∀ e, dictLookup template_mapping (wildKey pd) = some e →
        select_template pd =
          build_template_response e.1 e.2.1 e.2.2 pd (some [deckVerificationNote]) ∧
        (select_template pd).2.confidence = lit "high" ∧
        (select_template pd).2.notes = [deckVerificationNote] ∧
        (wildKey pd, e) ∈ template_mapping) ∧
    (dictLookup template_mapping (selectionKey pd) = none →
      dictLookup template_mapping (wildKey pd) = none →
      select_template pd = build_fallback_response pd) := by
  refine ⟨?_, ?_, ?_⟩
  · rintro ⟨tid, tname, descr⟩ h
    have hsel : select_template pd = build_template_response tid tname descr pd none := by
      unfold select_template; rw [h]
    exact ⟨hsel, by rw [hsel]; rfl, by rw [hsel]; rfl, dictLookup_mem _ _ _ h⟩
  · rintro h1 ⟨tid, tname, descr⟩ h2
    have hsel : select_template pd =
        build_template_response tid tname descr pd (some [deckVerificationNote]) := by
      unfold select_template; rw [h1, h2]
    exact ⟨hsel, by rw [hsel]; rfl, by rw [hsel]; rfl, dictLookup_mem _ _ _ h2⟩
  · intro h1 h2
    unfold select_template; rw [h1, h2]

/-- Witness for C1: the exact-match tier at the recover/TPO/MA/steel input. -/
theorem select_template_three_tier_witness :
    select_template pdRecoverSteel =
      build_template_response (lit "T2") (lit "T2-Recover-TPO(MA)-cvr-bd-BUR-lwc-steel")
        (lit "TPO recover over BUR on lightweight concrete and steel deck")
        pdRecoverSteel none ∧
    (select_template pdRecoverSteel).2.confidence = lit "high" ∧
    (select_template pdRecoverSteel).2.notes = [] ∧
    (selectionKey pdRecoverSteel,
      ((lit "T2", lit "T2-Recover-TPO(MA)-cvr-bd-BUR-lwc-steel",
        lit "TPO recover over BUR on lightweight concrete and steel deck") :
        TemplateEntry)) ∈ template_mapping :=
  (select_template_three_tier pdRecoverSteel).1
    (lit "T2", lit "T2-Recover-TPO(MA)-cvr-bd-BUR-lwc-steel",
     lit "TPO recover over BUR on lightweight concrete and steel deck") (by decide)

/-- Claim C3: a normalized combination with neither an exact nor a
wildcard-deck table entry yields the safe default T2, confidence low, with
notes reporting no exact match, the default template in use, and a manual
review recommendation. -/
theorem ultimate_fallback (pd : ProjectData)
    (h1 : dictLookup template_mapping (selectionKey pd) = none)
    (h2 : dictLookup template_mapping (wildKey pd) = none) :
    (select_template pd).1 = lit "T2" ∧
    (select_template pd).2.template_id = lit "T2" ∧
    (select_template pd).2.confidence = lit "low" ∧
    (select_template pd).2.notes =
      [lit "No exact template match found for specified parameters",
       lit "Using default TPO recover template",
       lit "Manual review recommended for template selection"] := by
  have hsel : select_template pd = build_fallback_response pd := by
    unfold select_template; rw [h1, h2]
  rw [hsel]
  exact ⟨rfl, rfl, rfl, rfl⟩

/-- Witness for C3 at the tableless combination (tearoff, PVC, ballasted,
absent) named by the spec. -/
theorem ultimate_fallback_witness :
    (select_template pdNoEntry).1 = lit "T2" ∧
    (select_template pdNoEntry).2.template_id = lit "T2" ∧
    (select_template pdNoEntry).2.confidence = lit "low" ∧
    (select_template pdNoEntry).2.notes =
      [lit "No exact template match found for specified parameters",
       lit "Using default TPO recover template",
       lit "Manual review recommended for template selection"] :=
  ultimate_fallback pdNoEntry (by decide) (by decide)

/-- Claim C10: when the deck field normalizes to absent, a wildcard-deck entry
is reached through the exact-match tier (the exact key already carries an
absent deck), so the result has confidence high and empty notes; the
deck-verification note can only appear when the deck normalized to a
recognized token whose exact key missed the table. -/
theorem wildcard_deck_via_exact_path (pd : ProjectData) :
    (normalizeDeckType (pd.deck_type.getD []) = none →
      ∀ e, dictLookup template_mapping (wildKey pd) = some e →
        select_template pd = build_template_response e.1 e.2.1 e.2.2 pd none ∧
        (select_template pd).2.confidence = lit "high" ∧
        (select_template pd).2.notes = []) ∧
    (deckVerificationNote ∈ (select_template pd).2.notes →
      normalizeDeckType (pd.deck_type.getD []) ≠ none ∧
      dictLookup template_mapping (selectionKey pd) = none) := by
  have hkey : normalizeDeckType (pd.deck_type.getD []) = none →
      selectionKey pd = wildKey pd := by
    intro hd
    simp [selectionKey, wildKey, hd]
  refine ⟨?_, ?_⟩
  · intro hd e hw
    obtain ⟨tid, tname, descr⟩ := e
    have hexact : dictLookup template_mapping (selectionKey pd) =
        some (tid, tname, descr) := by
      rw [hkey hd]; exact hw
    have hsel : select_template pd = build_template_response tid tname descr pd none := by
      unfold select_template; rw [hexact]
    exact ⟨hsel, by rw [hsel]; rfl, by rw [hsel]; rfl⟩
  · intro hmem
    cases hex : dictLookup template_mapping (selectionKey pd) with
    | some e =>
      exfalso
      obtain ⟨tid, tname, descr⟩ := e
      have hsel : select_template pd = build_template_response tid tname descr pd none := by
        unfold select_template; rw [hex]
      have hn : (select_template pd).2.notes = [] := by rw [hsel]; rfl
      rw [hn] at hmem
      exact List.not_mem_nil _ hmem
    | none =>
      refine ⟨?_, rfl⟩
      cases hw : dictLookup template_mapping (wildKey pd) with
      | some e =>
        intro hd
        have hex2 := hex
        rw [hkey hd, hw] at hex2
        exact Option.noConfusion hex2
      | none =>
        exfalso
        have hsel : select_template pd = build_fallback_response pd := by
          unfold select_template; rw [hex, hw]
        have hn : (select_template pd).2.notes =
            [lit "No exact template match found for specified parameters",
             lit "Using default TPO recover template",
             lit "Manual review recommended for template selection"] := by rw [hsel]; rfl
        rw [hn] at hmem
        exact absurd hmem (by decide)

/-- Witness for C10: the unrecognised deck string "bamboo" falls through to
the wildcard entry with confidence high and no notes. -/
theorem wildcard_deck_via_exact_path_witness :
    select_template pdBamboo =
      build_template_response (lit "T2") (lit "T2-Recover-TPO(MA)-cvr-bd-BUR-lwc-steel")
        (lit "Standard TPO recover (deck type to be determined)") pdBamboo none ∧
    (select_template pdBamboo).2.confidence = lit "high" ∧
    (select_template pdBamboo).2.notes = [] :=
  (wildcard_deck_via_exact_path pdBamboo).1 (by decide)
    (lit "T2", lit "T2-Recover-TPO(MA)-cvr-bd-BUR-lwc-steel",
     lit "Standard TPO recover (deck type to be determined)") (by decide)

/-- The confidence/compatible flags of a known-template report are determined
by emptiness of its error and warning lists. -/
theorem reportFor_flags (m : TemplateMetadata) (pd : ProjectData) :
    ((reportFor m pd).compatible = true ↔ (reportFor m pd).errors = []) ∧
    ((reportFor m pd).confidence = some (lit "high") ↔
      (reportFor m pd).errors = [] ∧ (reportFor m pd).warnings = []) ∧
    ((reportFor m pd).confidence = some (lit "medium") ↔
      (reportFor m pd).errors = [] ∧ (reportFor m pd).warnings ≠ []) ∧
    ((reportFor m pd).confidence = some (lit "low") ↔ (reportFor m pd).errors ≠ []) := by
  have d1 : lit "high" ≠ lit "medium" := by decide
  have d2 : lit "high" ≠ lit "low" := by decide
  have d3 : lit "medium" ≠ lit "low" := by decide
  unfold reportFor
  generalize validationErrors m pd = E
  generalize validationWarnings m pd = W
  cases E <;> cases W <;>
    simp [d1, d2, d3, d1.symm, d2.symm, d3.symm]

/-- Claim C4: for a known template id, `compatible` holds exactly when the
error list is empty, and confidence is high with no errors and no warnings,
medium with no errors but warnings, and low with errors. -/
theorem compatibility_confidence (tid : List Char) (m : TemplateMetadata)
    (pd : ProjectData) (h : dictLookup template_metadata tid = some m) :
    ((validate_template_compatibility tid pd).compatible = true ↔
      (validate_template_compatibility tid pd).errors = []) ∧
    ((validate_template_compatibility tid pd).confidence = some (lit "high") ↔
      (validate_template_compatibility tid pd).errors = [] ∧
      (validate_template_compatibility tid pd).warnings = []) ∧
    ((validate_template_compatibility tid pd).confidence = some (lit "medium") ↔
      (validate_template_compatibility tid pd).errors = [] ∧
      (validate_template_compatibility tid pd).warnings ≠ []) ∧
    ((validate_template_compatibility tid pd).confidence = some (lit "low") ↔
      (validate_template_compatibility tid pd).errors ≠ []) := by
  have hv : validate_template_compatibility tid pd = reportFor m pd := by
    unfold validate_template_compatibility; rw [h]
  rw [hv]
  exact reportFor_flags m pd

/-- Witness for C4 at template T2 and the compatible steel-recover input. -/
theorem compatibility_confidence_witness :
    ((validate_template_compatibility (lit "T2") pdRecoverSteel).compatible = true ↔
      (validate_template_compatibility (lit "T2") pdRecoverSteel).errors = []) ∧
    ((validate_template_compatibility (lit "T2") pdRecoverSteel).confidence =
        some (lit "high") ↔
      (validate_template_compatibility (lit "T2") pdRecoverSteel).errors = [] ∧
      (validate_template_compatibility (lit "T2") pdRecoverSteel).warnings = []) ∧
    ((validate_template_compatibility (lit "T2") pdRecoverSteel).confidence =
        some (lit "medium") ↔
      (validate_template_compatibility (lit "T2") pdRecoverSteel).errors = [] ∧
      (validate_template_compatibility (lit "T2") pdRecoverSteel).warnings ≠ []) ∧
    ((validate_template_compatibility (lit "T2") pdRecoverSteel).confidence =
        some (lit "low") ↔
      (validate_template_compatibility (lit "T2") pdRecoverSteel).errors ≠ []) :=
  compatibility_confidence (lit "T2") metaT2 pdRecoverSteel (by decide)

/-- Claim C5: every restriction of a known template is surfaced as a warning
of the compatibility report, unconditionally in the project data. -/
theorem restrictions_surfaced (tid : List Char) (m : TemplateMetadata)
    (pd : ProjectData) (h : dictLookup template_metadata tid = some m)
    (r : List Char) (hr : r ∈ m.restrictions) :
    (lit "Template restriction: " ++ r) ∈
      (validate_template_compatibility tid pd).warnings := by
  have hv : validate_template_compatibility tid pd = reportFor m pd := by
    unfold validate_template_compatibility; rw [h]
  rw [hv]
  show (lit "Template restriction: " ++ r) ∈ validationWarnings m pd
  unfold validationWarnings
  exact List.mem_append_right _ (List.mem_map_of_mem _ hr)

/-- Witness for C5: the T4 Prologis restriction appears even for a fully
compatible input. -/
theorem restrictions_surfaced_witness :
    (lit "Template restriction: " ++ lit "Not approved for Prologis projects") ∈
      (validate_template_compatibility (lit "T4") pdFleeceSteel).warnings :=
  restrictions_surfaced (lit "T4") metaT4 pdFleeceSteel (by decide)
    (lit "Not approved for Prologis projects") (by decide)

/-- Claim C9: for a known template id, two project records that differ only in
the fastening_pattern field get identical compatibility reports — the
attachment method is never consulted by the validator. -/
theorem attachment_method_never_checked (tid : List Char) (pd1 pd2 : ProjectData)
    (_hknown : (dictLookup template_metadata tid).isSome = true)
    (h1 : pd1.project_type = pd2.project_type)
    (h2 : pd1.membrane_type = pd2.membrane_type)
    (h3 : pd1.deck_type = pd2.deck_type) :
    validate_template_compatibility tid pd1 = validate_template_compatibility tid pd2 := by
  rcases hm : dictLookup template_metadata tid with _ | m
  · unfold validate_template_compatibility
    rw [hm]
  · unfold validate_template_compatibility
    rw [hm]
    unfold reportFor validationErrors validationWarnings
    rw [h1, h2, h3]

/-- Witness for C9: two adhered-vs-mechanical inputs produce the same T6
report. -/
theorem attachment_method_never_checked_witness :
    validate_template_compatibility (lit "T6") pdTearoffAdhered =
      validate_template_compatibility (lit "T6") pdTearoffMA :=
  attachment_method_never_checked (lit "T6") pdTearoffAdhered pdTearoffMA
    (by decide) rfl rfl rfl
